import Mathlib

/-!
Shallow embedding of the Trip Ceylon itinerary generator
(`Back End/itinerary/PYTHON_SCRIPT_WITH_REAL_DATA.py`, class `ItineraryGenerator`).

Numeric values (ratings, distances, budgets) are embedded as rationals,
Python integers as `Int`/`Nat`, dataframes as lists kept in row order.
-/

namespace TripCeylon

/-- A row of `location_data`: `place_id`, `name`, `type` (list of category
tags), `rating`, `season` (list of season tags). -/
structure Location where
  place_id : Nat
  name : String
  type : List String
  rating : ℚ
  season : List String
deriving DecidableEq

/-- A row of `distance_data`: `place_id_from`, `place_id_to`, `distance_km`. -/
structure DistanceEdge where
  place_id_from : Nat
  place_id_to : Nat
  distance_km : ℚ
deriving DecidableEq

/-- The projection of a Python `datetime` the script actually reads:
its day ordinal (so that `(d2 - d1).days = d2.days - d1.days`) and its
calendar month (`.month`). -/
structure Date where
  days : Int
  month : Nat
deriving DecidableEq

/-- The three pace presets of `generate_pace_options` (the `trip_duration`
argument is unused in the source; the presets are constants). -/
inductive Pace where
  | fastPaced
  | balanced
  | relaxing
deriving DecidableEq

/-- `locations_per_day` of the preset dict. -/
def Pace.locations_per_day : Pace → Nat
  | .fastPaced => 4
  | .balanced => 3
  | .relaxing => 2

/-- `distance_per_day_km` of the preset dict. -/
def Pace.distance_per_day_km : Pace → ℚ
  | .fastPaced => 500
  | .balanced => 300
  | .relaxing => 150

/-- The pace buffer dict at the end of `_calculate_actual_budget`. -/
def Pace.budget_multiplier : Pace → ℚ
  | .fastPaced => 1.2
  | .balanced => 1.1
  | .relaxing => 1.0

/-- The dataframe row filter shared by `_get_distance`, `_optimize_route`
and `_calculate_actual_budget`: the first row of `distances_df` (in table
order) matching the unordered pair, as `pandas` boolean filtering followed
by `iloc[0]` does; `none` when no row matches in either direction. -/
def findDistance (tbl : List DistanceEdge) (a b : Nat) : Option ℚ :=
  (tbl.find? (fun e =>
      (e.place_id_from == a && e.place_id_to == b) ||
      (e.place_id_from == b && e.place_id_to == a))).map (fun e => e.distance_km)

/-- `_get_distance`: the matched row's `distance_km`, or `0` when no row
matches. -/
def get_distance (tbl : List DistanceEdge) (from_id to_id : Nat) : ℚ :=
  (findDistance tbl from_id to_id).getD 0

/-- `_is_season_suitable`: months are read off the trip dates; the
`DEC-APR` window tests `start_month >= 12 or start_month <= 4` on either
endpoint, the `JUN-SEP` window tests `6 <= month <= 9` on either endpoint. -/
def is_season_suitable (season : List String) (trip_start_date trip_end_date : Date) : Bool :=
  let start_month := trip_start_date.month
  let end_month := trip_end_date.month
  let dec_apr_suitable :=
    decide ("DEC-APR" ∈ season) &&
      (decide (12 ≤ start_month) || decide (start_month ≤ 4) ||
       decide (12 ≤ end_month) || decide (end_month ≤ 4))
  let jun_sep_suitable :=
    decide ("JUN-SEP" ∈ season) &&
      ((decide (6 ≤ start_month) && decide (start_month ≤ 9)) ||
       (decide (6 ≤ end_month) && decide (end_month ≤ 9)))
  dec_apr_suitable || jun_sep_suitable

/-- `user_preferences.get(t, 0)`: the preference dict embedded as an
association list with unique keys. -/
def weightOf (prefs : List (String × ℚ)) (t : String) : ℚ :=
  ((prefs.find? (fun p => p.1 == t)).map (fun p => p.2)).getD 0

/-- The per-`place_id` weighted score of `apply_preferences` followed by the
`groupby("place_id").agg(weighted_score: sum)` of `optimize_itinerary`
(place ids are unique in the catalog): the `type` column is exploded, each
row gets `rating * (preference_score / 100)`, rows of season-suitable
locations are doubled, and the rows of one `place_id` are summed. -/
def aggregated_weighted_score (prefs : List (String × ℚ))
    (trip_start trip_end : Date) (loc : Location) : ℚ :=
  (loc.type.map (fun t =>
    let weighted := loc.rating * (weightOf prefs t / 100)
    if is_season_suitable loc.season trip_start trip_end then weighted * 2 else weighted)).sum

/-- `selection_df` after the `excluded_locations` filter (line
`selection_df = selection_df[~selection_df["name"].isin(excluded_locations)]`). -/
def not_excluded_df (catalog : List Location) (excluded_locations : List String) : List Location :=
  catalog.filter (fun l => !decide (l.name ∈ excluded_locations))

/-- `mandatory_df`: rows of the exclusion-filtered catalog whose name is in
`mandatory_locations`. -/
def mandatory_df (catalog : List Location)
    (mandatory_locations excluded_locations : List String) : List Location :=
  (not_excluded_df catalog excluded_locations).filter
    (fun l => decide (l.name ∈ mandatory_locations))

/-- `selection_df` after mandatory rows are removed from the pool. -/
def pool_df (catalog : List Location)
    (mandatory_locations excluded_locations : List String) : List Location :=
  (not_excluded_df catalog excluded_locations).filter
    (fun l => !decide (l.name ∈ mandatory_locations))

/-- The pool with aggregated scores merged in, sorted descending by
`weighted_score`, with the `specific_interests` 1.5x boost and re-sort when
that list is non-empty. -/
def ranked_pool (catalog : List Location) (prefs : List (String × ℚ))
    (trip_start trip_end : Date)
    (mandatory_locations excluded_locations : List String)
    (specific_interests : List Nat) : List (Location × ℚ) :=
  let scored := (pool_df catalog mandatory_locations excluded_locations).map
    (fun l => (l, aggregated_weighted_score prefs trip_start trip_end l))
  let sorted1 := scored.insertionSort (fun a b => b.2 ≤ a.2)
  if specific_interests.isEmpty then sorted1
  else
    ((sorted1.map (fun p =>
        if decide (p.1.place_id ∈ specific_interests) then (p.1, p.2 * 1.5) else p)).insertionSort
      (fun a b => b.2 ≤ a.2))

/-- `max_locations = min(len(selection_df) + len(mandatory_df),
trip_duration * selected_pace["locations_per_day"])` (Python ints: `Int`). -/
def max_locations (catalog : List Location) (pace : Pace) (trip_duration : Int)
    (mandatory_locations excluded_locations : List String) : Int :=
  min ((pool_df catalog mandatory_locations excluded_locations).length +
        (mandatory_df catalog mandatory_locations excluded_locations).length : Int)
    (trip_duration * pace.locations_per_day)

/-- `remaining_slots = max(0, max_locations - len(mandatory_df))`. -/
def remaining_slots (catalog : List Location) (pace : Pace) (trip_duration : Int)
    (mandatory_locations excluded_locations : List String) : Int :=
  max 0 (max_locations catalog pace trip_duration mandatory_locations excluded_locations -
    (mandatory_df catalog mandatory_locations excluded_locations).length)

/-- `final_locations = pd.concat([mandatory_df, selection_df.head(remaining_slots)])`:
the Location Selector's final selection (lines 236-283 of
`optimize_itinerary`). -/
def select_locations (catalog : List Location) (prefs : List (String × ℚ))
    (trip_start trip_end : Date) (pace : Pace) (trip_duration : Int)
    (mandatory_locations excluded_locations : List String)
    (specific_interests : List Nat) : List Location :=
  mandatory_df catalog mandatory_locations excluded_locations ++
    ((ranked_pool catalog prefs trip_start trip_end mandatory_locations excluded_locations
        specific_interests).take
      (remaining_slots catalog pace trip_duration mandatory_locations
        excluded_locations).toNat).map Prod.fst

/-- The inner `for idx, location in enumerate(remaining_locations)` scan of
`_optimize_route`, carried with the running best `(min_distance,
closest_idx, closest_location)`; `none` plays the role of the
`float('inf')` initialisation, and only a found distance strictly below the
current minimum replaces the best. -/
def find_closest_aux (tbl : List DistanceEdge) (current_id : Nat) :
    List Location → Nat → Option (ℚ × Nat × Location) → Option (ℚ × Nat × Location)
  | [], _, best => best
  | loc :: rest, idx, best =>
    let best' :=
      match findDistance tbl current_id loc.place_id with
      | none => best
      | some d =>
        match best with
        | none => some (d, idx, loc)
        | some (m, j, b) => if d < m then some (d, idx, loc) else some (m, j, b)
    find_closest_aux tbl current_id rest (idx + 1) best'

/-- The closest unvisited location to `current_id`, with its distance and
its index in `remaining`. -/
def find_closest (tbl : List DistanceEdge) (current_id : Nat)
    (remaining : List Location) : Option (ℚ × Nat × Location) :=
  find_closest_aux tbl current_id remaining 0 none

/-- The `while remaining_locations and current_total_distance <
total_allowed_distance` loop of `_optimize_route`, returning the locations
appended after the starting point together with the accumulated distance of
the committed steps.  The fuel argument is instantiated with
`remaining.length` (each committed step removes one unvisited location, so
that fuel never runs out before the loop's own exit conditions). -/
def route_loop (tbl : List DistanceEdge) (total_allowed_distance : ℚ) :
    Nat → Location → List Location → ℚ → List Location × ℚ
  | 0, _, _, current_total_distance => ([], current_total_distance)
  | fuel + 1, current_location, remaining_locations, current_total_distance =>
    if remaining_locations.isEmpty then ([], current_total_distance)
    else if total_allowed_distance ≤ current_total_distance then
      ([], current_total_distance)
    else
      match find_closest tbl current_location.place_id remaining_locations with
      | none => ([], current_total_distance)
      | some (min_distance, closest_idx, closest_location) =>
        if current_total_distance + min_distance ≤ total_allowed_distance then
          let r := route_loop tbl total_allowed_distance fuel closest_location
            (remaining_locations.eraseIdx closest_idx)
            (current_total_distance + min_distance)
          (closest_location :: r.1, r.2)
        else ([], current_total_distance)

/-- The body of the `for idx, location in enumerate(locations)` loop of
`_assign_days_to_locations`: `day = idx // locations_per_day + 1`, keeping
an entry only when `day <= trip_duration`. -/
def assign_days_go (locations_per_day trip_duration : Nat) :
    Nat → List Location → List (Location × Nat)
  | _, [] => []
  | idx, loc :: rest =>
    let day := idx / locations_per_day + 1
    if day ≤ trip_duration then
      (loc, day) :: assign_days_go locations_per_day trip_duration (idx + 1) rest
    else assign_days_go locations_per_day trip_duration (idx + 1) rest

/-- `_assign_days_to_locations`: `locations_per_day =
math.ceil(len(locations) / trip_duration)`, embedded for positive
`trip_duration` as `(len + trip_duration - 1) / trip_duration` (the exact
ceiling of the real quotient; for `trip_duration <= 0` with a non-empty
list the original raises `ZeroDivisionError`, a path none of the claims
reach). -/
def assign_days_to_locations (locations : List Location) (trip_duration : Nat) :
    List (Location × Nat) :=
  if locations.isEmpty then []
  else
    let locations_per_day := (locations.length + trip_duration - 1) / trip_duration
    assign_days_go locations_per_day trip_duration 0 locations

/-- `_optimize_route`: empty input short-circuits to `[]`; otherwise the
first location starts the route unconditionally, the greedy loop extends
it under the budget `max_distance_per_day * trip_duration`, and days are
assigned as post-processing. -/
def optimize_route (tbl : List DistanceEdge) (locations : List Location)
    (max_distance_per_day : ℚ) (trip_duration : Nat) : List (Location × Nat) :=
  match locations with
  | [] => []
  | first :: rest =>
    let total_allowed_distance := max_distance_per_day * trip_duration
    let r := route_loop tbl total_allowed_distance rest.length first rest 0
    assign_days_to_locations (first :: r.1) trip_duration

/-- The final value of `_optimize_route`'s `current_total_distance`
accumulator (the distance committed into the route; a tentative addition
that overflows the budget is rejected together with its candidate). -/
def route_accumulated_distance (tbl : List DistanceEdge) (locations : List Location)
    (max_distance_per_day : ℚ) (trip_duration : Nat) : ℚ :=
  match locations with
  | [] => 0
  | first :: rest =>
    (route_loop tbl (max_distance_per_day * trip_duration) rest.length first rest 0).2

/-- The consecutive pairs `(itinerary[i], itinerary[i+1])` of the
`for i in range(len(itinerary) - 1)` loops. -/
def consecutive_pairs {α : Type} : List α → List (α × α)
  | a :: b :: rest => (a, b) :: consecutive_pairs (b :: rest)
  | _ => []

/-- The `total_distance` accumulation of `_calculate_actual_budget`: each
consecutive pair contributes its matched row's `distance_km`, and nothing
when no row matches. -/
def itinerary_total_distance (tbl : List DistanceEdge)
    (itinerary : List (Location × Nat)) : ℚ :=
  ((consecutive_pairs itinerary).map
    (fun p => (findDistance tbl p.1.1.place_id p.2.1.place_id).getD 0)).sum

/-- `_calculate_actual_budget`: `0` for an empty itinerary, otherwise
`(transportation + accommodation + food + activities) * pace buffer`. -/
def calculate_actual_budget (tbl : List DistanceEdge)
    (itinerary : List (Location × Nat)) (trip_duration : Int) (pace : Pace)
    (num_travelers : Nat) : ℚ :=
  if itinerary.isEmpty then 0
  else
    let total_distance := itinerary_total_distance tbl itinerary
    let transportation_cost := total_distance * 0.2 / num_travelers
    let accommodation_cost : ℚ := trip_duration * 50
    let food_cost : ℚ := trip_duration * 30
    let activity_cost : ℚ := itinerary.length * 10
    (transportation_cost + accommodation_cost + food_cost + activity_cost) *
      pace.budget_multiplier

/-- `calculate_min_budget`. -/
def calculate_min_budget (trip_duration : Int) (pace : Pace) (num_travelers : Nat) : ℚ :=
  let base_cost_per_day : ℚ := 50
  let distance_factor := pace.distance_per_day_km * 0.2
  let transportation_cost := distance_factor * trip_duration / num_travelers
  let other_costs := base_cost_per_day * trip_duration
  transportation_cost + other_costs

/-- The dict returned by `optimize_itinerary`. -/
structure ItineraryResult where
  itinerary : List (Location × Nat)
  trip_duration : Int
  pace : Pace
  min_budget : ℚ
  actual_budget : ℚ
  total_locations : Nat
  num_travelers : Nat
deriving DecidableEq

/-- `optimize_itinerary`: `trip_duration = (trip_end_date -
trip_start_date).days + 1` with no validation, then selection, greedy
routing and budgets.  `trip_duration.toNat` feeds the route builder: for a
non-positive duration the two agree on the loop (its budget is then not
positive, so no step commits) and diverge only on the day-assignment path
where the original raises `ZeroDivisionError` (non-empty selection with
non-positive duration). -/
def optimize_itinerary (catalog : List Location) (tbl : List DistanceEdge)
    (trip_start_date trip_end_date : Date) (user_preferences : List (String × ℚ))
    (pace : Pace) (mandatory_locations excluded_locations : List String)
    (specific_interests : List Nat) (num_travelers : Nat) : ItineraryResult :=
  let trip_duration := trip_end_date.days - trip_start_date.days + 1
  let min_budget := calculate_min_budget trip_duration pace num_travelers
  let final_locations := select_locations catalog user_preferences trip_start_date
    trip_end_date pace trip_duration mandatory_locations excluded_locations
    specific_interests
  let optimized_itinerary := optimize_route tbl final_locations
    pace.distance_per_day_km trip_duration.toNat
  let actual_budget := calculate_actual_budget tbl optimized_itinerary trip_duration
    pace num_travelers
  { itinerary := optimized_itinerary
    trip_duration := trip_duration
    pace := pace
    min_budget := min_budget
    actual_budget := actual_budget
    total_locations := optimized_itinerary.length
    num_travelers := num_travelers }

/-- Stated from the spec's words for comparison with
`itinerary_total_distance`: the sum of the known consecutive-pair route
distances, i.e. only the pairs whose lookup finds a row contribute. -/
def spec_known_distance_sum (tbl : List DistanceEdge)
    (itinerary : List (Location × Nat)) : ℚ :=
  ((consecutive_pairs itinerary).filterMap
    (fun p => findDistance tbl p.1.1.place_id p.2.1.place_id)).sum

/-- Sample catalog rows used to instantiate the theorems below. -/
def locA : Location := ⟨1, "Sigiriya", ["historical"], 4, ["DEC-APR"]⟩

def locB : Location := ⟨2, "Ella", ["adventure"], 5, ["JUN-SEP"]⟩

def locC : Location := ⟨3, "Galle", ["beach"], 3, ["DEC-APR", "JUN-SEP"]⟩

def locD : Location := ⟨4, "Kandy", ["cultural"], 4, []⟩

def demo_catalog : List Location := [locA, locB, locC, locD]

def demo_distances : List DistanceEdge := [⟨1, 2, 90⟩, ⟨2, 3, 120⟩, ⟨1, 3, 150⟩, ⟨1, 4, 80⟩]

/-! ### Helper lemmas -/

theorem route_loop_acc_le (tbl : List DistanceEdge) (B : ℚ) :
    ∀ (fuel : Nat) (cur : Location) (rem : List Location) (acc : ℚ),
      acc ≤ B → (route_loop tbl B fuel cur rem acc).2 ≤ B := by
  intro fuel
  induction fuel with
  | zero => intro cur rem acc h; simpa [route_loop] using h
  | succ n ih =>
    intro cur rem acc h
    rw [route_loop]
    split
    · simpa using h
    · split
      · simpa using h
      · cases hfc : find_closest tbl cur.place_id rem with
        | none => simpa using h
        | some t =>
          obtain ⟨d, i, loc⟩ := t
          simp only
          split
          · exact ih loc (rem.eraseIdx i) (acc + d) (by assumption)
          · simpa using h

theorem route_loop_length_le (tbl : List DistanceEdge) (B : ℚ) :
    ∀ (fuel : Nat) (cur : Location) (rem : List Location) (acc : ℚ),
      (route_loop tbl B fuel cur rem acc).1.length ≤ fuel := by
  intro fuel
  induction fuel with
  | zero => intro cur rem acc; simp [route_loop]
  | succ n ih =>
    intro cur rem acc
    rw [route_loop]
    split
    · simp
    · split
      · simp
      · cases hfc : find_closest tbl cur.place_id rem with
        | none => simp
        | some t =>
          obtain ⟨d, i, loc⟩ := t
          simp only
          split
          · simpa using Nat.succ_le_succ (ih loc (rem.eraseIdx i) (acc + d))
          · simp

theorem find_closest_aux_spec (tbl : List DistanceEdge) (cid : Nat) (S : List Location) :
    ∀ (rest : List Location) (idx : Nat) (best : Option (ℚ × Nat × Location)),
      (∀ x ∈ rest, x ∈ S) →
      (∀ d i l, best = some (d, i, l) → l ∈ S ∧ findDistance tbl cid l.place_id = some d) →
      ∀ d i l, find_closest_aux tbl cid rest idx best = some (d, i, l) →
        l ∈ S ∧ findDistance tbl cid l.place_id = some d := by
  intro rest
  induction rest with
  | nil => intro idx best _ hbest d i l h; exact hbest d i l (by simpa [find_closest_aux] using h)
  | cons x xs ih =>
    intro idx best hsub hbest d i l h
    rw [find_closest_aux] at h
    refine ih (idx + 1) _ (fun y hy => hsub y (List.mem_cons_of_mem _ hy)) ?_ d i l h
    intro d' i' l' hb'
    cases hfd : findDistance tbl cid x.place_id with
    | none =>
      simp only [hfd] at hb'
      exact hbest d' i' l' hb'
    | some dx =>
      simp only [hfd] at hb'
      cases hbv : best with
      | none =>
        rw [hbv] at hb'
        simp only [Option.some.injEq, Prod.mk.injEq] at hb'
        obtain ⟨h1, h2, h3⟩ := hb'
        subst h1; subst h3
        exact ⟨hsub x (List.mem_cons_self _ _), hfd⟩
      | some t =>
        obtain ⟨m, j, b⟩ := t
        rw [hbv] at hb'
        simp only at hb'
        split at hb'
        · simp only [Option.some.injEq, Prod.mk.injEq] at hb'
          obtain ⟨h1, h2, h3⟩ := hb'
          subst h1; subst h3
          exact ⟨hsub x (List.mem_cons_self _ _), hfd⟩
        · simp only [Option.some.injEq, Prod.mk.injEq] at hb'
          obtain ⟨h1, h2, h3⟩ := hb'
          subst h1; subst h3
          exact hbest m j b hbv

theorem find_closest_spec (tbl : List DistanceEdge) (cid : Nat)
    (remaining : List Location) (d : ℚ) (i : Nat) (loc : Location)
    (h : find_closest tbl cid remaining = some (d, i, loc)) :
    loc ∈ remaining ∧ findDistance tbl cid loc.place_id = some d :=
  find_closest_aux_spec tbl cid remaining remaining 0 none (fun _ hx => hx)
    (by intro _ _ _ h'; cases h') d i loc h

theorem route_loop_subset (tbl : List DistanceEdge) (B : ℚ) :
    ∀ (fuel : Nat) (cur : Location) (rem : List Location) (acc : ℚ),
      ∀ l ∈ (route_loop tbl B fuel cur rem acc).1, l ∈ rem := by
  intro fuel
  induction fuel with
  | zero => intro cur rem acc l h; simp [route_loop] at h
  | succ n ih =>
    intro cur rem acc l h
    rw [route_loop] at h
    split at h
    · simp at h
    · split at h
      · simp at h
      · cases hfc : find_closest tbl cur.place_id rem with
        | none => rw [hfc] at h; simp at h
        | some t =>
          obtain ⟨d, i, loc⟩ := t
          rw [hfc] at h
          simp only at h
          split at h
          · rcases List.mem_cons.mp h with h1 | h1
            · rw [h1]; exact (find_closest_spec tbl cur.place_id rem d i loc hfc).1
            · exact (rem.eraseIdx_sublist i).subset (ih loc (rem.eraseIdx i) (acc + d) l h1)
          · simp at h

theorem assign_days_go_mem (lpd D : Nat) :
    ∀ (locs : List Location) (idx : Nat) (p : Location × Nat),
      p ∈ assign_days_go lpd D idx locs → p.1 ∈ locs ∧ 1 ≤ p.2 ∧ p.2 ≤ D := by
  intro locs
  induction locs with
  | nil => intro idx p h; simp [assign_days_go] at h
  | cons l rest ih =>
    intro idx p h
    rw [assign_days_go] at h
    split at h
    · rcases List.mem_cons.mp h with h1 | h1
      · subst h1
        exact ⟨List.mem_cons_self _ _, Nat.le_add_left 1 _, by assumption⟩
      · obtain ⟨hm, h2, h3⟩ := ih (idx + 1) p h1
        exact ⟨List.mem_cons_of_mem _ hm, h2, h3⟩
    · obtain ⟨hm, h2, h3⟩ := ih (idx + 1) p h
      exact ⟨List.mem_cons_of_mem _ hm, h2, h3⟩

theorem assign_days_go_length_le (lpd D : Nat) :
    ∀ (locs : List Location) (idx : Nat),
      (assign_days_go lpd D idx locs).length ≤ locs.length := by
  intro locs
  induction locs with
  | nil => intro idx; simp [assign_days_go]
  | cons l rest ih =>
    intro idx
    rw [assign_days_go]
    split
    · simpa using Nat.succ_le_succ (ih (idx + 1))
    · exact Nat.le_succ_of_le (ih (idx + 1))

theorem assign_days_go_length_eq (lpd D : Nat) :
    ∀ (locs : List Location) (idx : Nat),
      (∀ k, k < idx + locs.length → k / lpd + 1 ≤ D) →
      (assign_days_go lpd D idx locs).length = locs.length := by
  intro locs
  induction locs with
  | nil => intro idx _; simp [assign_days_go]
  | cons l rest ih =>
    intro idx hk
    rw [assign_days_go]
    have hday : idx / lpd + 1 ≤ D := hk idx (by simp)
    rw [if_pos hday]
    simp only [List.length_cons]
    rw [ih (idx + 1) (fun k hlt => hk k (by simpa [Nat.add_right_comm] using hlt))]

theorem ceil_div_mul_ge (L D : Nat) (hD : 1 ≤ D) (hL : 1 ≤ L) :
    L ≤ ((L + D - 1) / D) * D := by
  have hmod := Nat.div_add_mod (L + D - 1) D
  have hlt : (L + D - 1) % D < D := Nat.mod_lt _ (by omega)
  have h : D * ((L + D - 1) / D) + (L + D - 1) % D = L + D - 1 := hmod
  rw [Nat.mul_comm] at h
  omega

theorem assign_days_day_le (L D lpd k : Nat) (hD : 1 ≤ D) (hL : 1 ≤ L)
    (hlpd : lpd = (L + D - 1) / D) (hk : k < L) : k / lpd + 1 ≤ D := by
  have hpos : 0 < lpd := by
    rw [hlpd]
    have : D ≤ L + D - 1 := by omega
    exact Nat.one_le_div_iff (by omega) |>.mpr this
  have hle : L ≤ lpd * D := by rw [hlpd]; exact ceil_div_mul_ge L D hD hL
  have : k / lpd < D := (Nat.div_lt_iff_lt_mul hpos).mpr (by
    calc k < L := hk
    _ ≤ lpd * D := hle
    _ = D * lpd := Nat.mul_comm _ _)
  omega

theorem assign_days_to_locations_length (locs : List Location) (D : Nat) (hD : 1 ≤ D) :
    (assign_days_to_locations locs D).length = locs.length := by
  rw [assign_days_to_locations]
  cases locs with
  | nil => simp
  | cons l rest =>
    rw [if_neg (by simp)]
    exact assign_days_go_length_eq _ D (l :: rest) 0
      (fun k hk => assign_days_day_le (l :: rest).length D _ k hD (by simp) rfl (by simpa using hk))

theorem assign_days_to_locations_mem (locs : List Location) (D : Nat)
    (p : Location × Nat) (h : p ∈ assign_days_to_locations locs D) :
    p.1 ∈ locs ∧ 1 ≤ p.2 ∧ p.2 ≤ D := by
  rw [assign_days_to_locations] at h
  split at h
  · simp at h
  · exact assign_days_go_mem _ D locs 0 p h

theorem ranked_pool_length (catalog : List Location) (prefs : List (String × ℚ))
    (ts te : Date) (mand excl : List String) (si : List Nat) :
    (ranked_pool catalog prefs ts te mand excl si).length = (pool_df catalog mand excl).length := by
  rw [ranked_pool]
  split
  · simp [List.length_insertionSort]
  · simp [List.length_insertionSort]

theorem ranked_pool_mem_fst (catalog : List Location) (prefs : List (String × ℚ))
    (ts te : Date) (mand excl : List String) (si : List Nat) (p : Location × ℚ)
    (h : p ∈ ranked_pool catalog prefs ts te mand excl si) :
    p.1 ∈ pool_df catalog mand excl := by
  rw [ranked_pool] at h
  split at h
  · rw [List.mem_insertionSort] at h
    obtain ⟨l, hl, heq⟩ := List.mem_map.mp h
    rw [← heq]
    exact hl
  · rw [List.mem_insertionSort] at h
    obtain ⟨q, hq, hfq⟩ := List.mem_map.mp h
    rw [List.mem_insertionSort] at hq
    obtain ⟨l, hl, hleq⟩ := List.mem_map.mp hq
    have h1 : p.1 = q.1 := by
      rw [← hfq]
      split
      · rfl
      · rfl
    rw [h1, ← hleq]
    exact hl

theorem select_locations_length (catalog : List Location) (prefs : List (String × ℚ))
    (ts te : Date) (pace : Pace) (D : Int) (mand excl : List String) (si : List Nat) :
    (select_locations catalog prefs ts te pace D mand excl si).length =
      (mandatory_df catalog mand excl).length +
        min (remaining_slots catalog pace D mand excl).toNat (pool_df catalog mand excl).length := by
  rw [select_locations]
  rw [List.length_append, List.length_map, List.length_take, ranked_pool_length]

theorem sum_map_getD_eq_sum_filterMap {α : Type} (f : α → Option ℚ) :
    ∀ (l : List α), (l.map (fun a => (f a).getD 0)).sum = (l.filterMap f).sum := by
  intro l
  induction l with
  | nil => simp
  | cons a rest ih =>
    cases hfa : f a with
    | none => simp [List.filterMap_cons, hfa, ih]
    | some d => simp [List.filterMap_cons, hfa, ih]

theorem mem_pool_df_not_excluded (catalog : List Location) (mand excl : List String)
    (l : Location) (h : l ∈ pool_df catalog mand excl) : l.name ∉ excl := by
  rw [pool_df, List.mem_filter] at h
  rw [not_excluded_df, List.mem_filter] at h
  have := h.1.2
  simpa using this

theorem mem_mandatory_df_not_excluded (catalog : List Location) (mand excl : List String)
    (l : Location) (h : l ∈ mandatory_df catalog mand excl) : l.name ∉ excl := by
  rw [mandatory_df, List.mem_filter] at h
  rw [not_excluded_df, List.mem_filter] at h
  have := h.1.2
  simpa using this

theorem select_locations_subset_not_excluded (catalog : List Location)
    (prefs : List (String × ℚ)) (ts te : Date) (pace : Pace) (D : Int)
    (mand excl : List String) (si : List Nat) (l : Location)
    (h : l ∈ select_locations catalog prefs ts te pace D mand excl si) : l.name ∉ excl := by
  rw [select_locations, List.mem_append] at h
  cases h with
  | inl h => exact mem_mandatory_df_not_excluded catalog mand excl l h
  | inr h =>
    obtain ⟨p, hp, hpe⟩ := List.mem_map.mp h
    have hpool : p.1 ∈ pool_df catalog mand excl :=
      ranked_pool_mem_fst catalog prefs ts te mand excl si p (List.take_subset _ _ hp)
    rw [← hpe]
    exact mem_pool_df_not_excluded catalog mand excl p.1 hpool

theorem assign_days_to_locations_length_le (locs : List Location) (D : Nat) :
    (assign_days_to_locations locs D).length ≤ locs.length := by
  rw [assign_days_to_locations]
  split
  · simp
  · exact assign_days_go_length_le _ D locs 0

theorem optimize_route_mem_fst (tbl : List DistanceEdge) (locs : List Location)
    (maxd : ℚ) (D : Nat) (p : Location × Nat)
    (h : p ∈ optimize_route tbl locs maxd D) : p.1 ∈ locs := by
  cases locs with
  | nil => simp [optimize_route] at h
  | cons first rest =>
    simp only [optimize_route] at h
    have hm := (assign_days_to_locations_mem _ D p h).1
    rcases List.mem_cons.mp hm with h1 | h1
    · rw [h1]; exact List.mem_cons_self _ _
    · exact List.mem_cons_of_mem _
        (route_loop_subset tbl _ rest.length first rest 0 p.1 h1)

/-! ### Claim theorems -/

/-- C4: for genuine calendar months, `_is_season_suitable` returns `true`
iff the tag set contains `"DEC-APR"` and the trip's start or end month lies
in {12,1,2,3,4}, or contains `"JUN-SEP"` and the start or end month lies in
{6,7,8,9}; and for every tag set, a trip whose start and end months are
both 5, or both 11, is unsuitable. -/
theorem C4_season_suitability (season : List String) (s e : Date)
    (hs1 : 1 ≤ s.month) (hs2 : s.month ≤ 12) (he1 : 1 ≤ e.month) (he2 : e.month ≤ 12) :
    (is_season_suitable season s e = true ↔
      (("DEC-APR" ∈ season ∧
        (s.month = 12 ∨ s.month = 1 ∨ s.month = 2 ∨ s.month = 3 ∨ s.month = 4 ∨
         e.month = 12 ∨ e.month = 1 ∨ e.month = 2 ∨ e.month = 3 ∨ e.month = 4)) ∨
       ("JUN-SEP" ∈ season ∧
        ((6 ≤ s.month ∧ s.month ≤ 9) ∨ (6 ≤ e.month ∧ e.month ≤ 9))))) ∧
    (s.month = 5 → e.month = 5 → is_season_suitable season s e = false) ∧
    (s.month = 11 → e.month = 11 → is_season_suitable season s e = false) := by
  refine ⟨?_, ?_, ?_⟩
  · by_cases hd : "DEC-APR" ∈ season <;> by_cases hj : "JUN-SEP" ∈ season <;>
      simp [is_season_suitable, hd, hj] <;> omega
  · intro h5s h5e
    simp [is_season_suitable, h5s, h5e]
  · intro h11s h11e
    simp [is_season_suitable, h11s, h11e]

/-- C4 witness at a concrete trip (January to February, tag DEC-APR). -/
theorem C4_season_suitability_witness :
    (1 ≤ (⟨0, 1⟩ : Date).month ∧ (⟨0, 1⟩ : Date).month ≤ 12 ∧
     1 ≤ (⟨31, 2⟩ : Date).month ∧ (⟨31, 2⟩ : Date).month ≤ 12) ∧
    ((is_season_suitable ["DEC-APR"] ⟨0, 1⟩ ⟨31, 2⟩ = true ↔
      (("DEC-APR" ∈ ["DEC-APR"] ∧
        ((⟨0, 1⟩ : Date).month = 12 ∨ (⟨0, 1⟩ : Date).month = 1 ∨
         (⟨0, 1⟩ : Date).month = 2 ∨ (⟨0, 1⟩ : Date).month = 3 ∨
         (⟨0, 1⟩ : Date).month = 4 ∨
         (⟨31, 2⟩ : Date).month = 12 ∨ (⟨31, 2⟩ : Date).month = 1 ∨
         (⟨31, 2⟩ : Date).month = 2 ∨ (⟨31, 2⟩ : Date).month = 3 ∨
         (⟨31, 2⟩ : Date).month = 4)) ∨
       ("JUN-SEP" ∈ ["DEC-APR"] ∧
        ((6 ≤ (⟨0, 1⟩ : Date).month ∧ (⟨0, 1⟩ : Date).month ≤ 9) ∨
         (6 ≤ (⟨31, 2⟩ : Date).month ∧ (⟨31, 2⟩ : Date).month ≤ 9))))) ∧
     ((⟨0, 1⟩ : Date).month = 5 → (⟨31, 2⟩ : Date).month = 5 →
       is_season_suitable ["DEC-APR"] ⟨0, 1⟩ ⟨31, 2⟩ = false) ∧
     ((⟨0, 1⟩ : Date).month = 11 → (⟨31, 2⟩ : Date).month = 11 →
       is_season_suitable ["DEC-APR"] ⟨0, 1⟩ ⟨31, 2⟩ = false)) :=
  ⟨by decide,
   C4_season_suitability ["DEC-APR"] ⟨0, 1⟩ ⟨31, 2⟩ (by decide) (by decide) (by decide) (by decide)⟩

/-- C5: the aggregated weighted score of a location equals the sum over its
category tags of `rating * (weight(tag, default 0) / 100)`, doubled exactly
when the location is season-suitable for the trip dates; a tag absent from
the preference mapping contributes exactly `0`. -/
theorem C5_aggregated_score (prefs : List (String × ℚ)) (ts te : Date) (loc : Location) :
    aggregated_weighted_score prefs ts te loc =
      (if is_season_suitable loc.season ts te then 2 else 1) *
        (loc.type.map (fun t => loc.rating * (weightOf prefs t / 100))).sum ∧
    ∀ t, prefs.find? (fun p => p.1 == t) = none →
      loc.rating * (weightOf prefs t / 100) = 0 := by
  constructor
  · by_cases hs : is_season_suitable loc.season ts te <;>
      simp [aggregated_weighted_score, hs, List.sum_map_mul_right, List.sum_map_mul_left,
        mul_comm]
  · intro t hf
    rw [weightOf, hf]
    simp

/-- C5 witness: a tag with no preference record contributes zero. -/
theorem C5_aggregated_score_witness :
    ([("beach", (80 : ℚ))].find? (fun p => p.1 == "historical") = none) ∧
    locA.rating * (weightOf [("beach", (80 : ℚ))] "historical" / 100) = 0 :=
  ⟨by decide,
   (C5_aggregated_score [("beach", (80 : ℚ))] ⟨0, 1⟩ ⟨31, 2⟩ locA).2 "historical" (by decide)⟩

/-- C9: a pair of identifiers with no distance row in either direction
yields `_get_distance = 0` (hence contributes `0` to the budget's distance
accumulation), and the greedy scan never returns such a pair as the closest
candidate, since only a found distance can lower the minimum initialised at
infinity. -/
theorem C9_missing_distance (tbl : List DistanceEdge) (a b : Nat)
    (h : findDistance tbl a b = none) :
    get_distance tbl a b = 0 ∧
    ∀ (remaining : List Location) (d : ℚ) (i : Nat) (loc : Location),
      find_closest tbl a remaining = some (d, i, loc) → loc.place_id ≠ b := by
  constructor
  · rw [get_distance, h]
    rfl
  · intro remaining d i loc hfc hpid
    have hfd := (find_closest_spec tbl a remaining d i loc hfc).2
    rw [hpid, h] at hfd
    cases hfd

/-- C9 witness: identifiers 2 and 4 share no distance row in
`demo_distances`. -/
theorem C9_missing_distance_witness :
    findDistance demo_distances 2 4 = none ∧ get_distance demo_distances 2 4 = 0 :=
  ⟨by decide, (C9_missing_distance demo_distances 2 4 (by decide)).1⟩

/-- C10: the greedy route construction is a total function (the loop is
fueled by the number of unvisited locations and each committed step
consumes one), and the emitted itinerary never has more entries than the
input list. -/
theorem C10_route_terminates (tbl : List DistanceEdge) (locs : List Location)
    (maxd : ℚ) (D : Nat) :
    (optimize_route tbl locs maxd D).length ≤ locs.length := by
  cases locs with
  | nil => simp [optimize_route]
  | cons first rest =>
    simp only [optimize_route]
    calc (assign_days_to_locations
            (first :: (route_loop tbl (maxd * D) rest.length first rest 0).1) D).length
        ≤ (first :: (route_loop tbl (maxd * D) rest.length first rest 0).1).length :=
          assign_days_to_locations_length_le _ D
      _ = (route_loop tbl (maxd * D) rest.length first rest 0).1.length + 1 := by simp
      _ ≤ rest.length + 1 :=
          Nat.succ_le_succ (route_loop_length_le tbl _ rest.length first rest 0)
      _ = (first :: rest).length := by simp

/-- C1 counterexample: a 1-day Relaxing trip caps the selection at
`1 * 2 = 2` locations, yet with all three matching catalog names mandatory
the final selection has 3 entries, exceeding the product. -/
theorem C1_counterexample :
    ((1 : Int) * (Pace.relaxing.locations_per_day : Int) = 2) ∧
    2 < (select_locations demo_catalog [] ⟨0, 1⟩ ⟨0, 1⟩ .relaxing 1
      ["Sigiriya", "Ella", "Galle"] [] []).length := by decide

/-- C1 amended: for `trip_duration_days ≥ 1` the final selection has size
at most `max (trip_duration_days * pace.max_locations_per_day) m`, where
`m` is the number of catalog locations that are mandatory and not
excluded; the bound `trip_duration_days * pace.max_locations_per_day`
holds whenever `m` does not exceed that product (but not when the
mandatory locations alone exceed it). -/
theorem C1_selection_size_bound (catalog : List Location) (prefs : List (String × ℚ))
    (ts te : Date) (pace : Pace) (D : Int) (mand excl : List String) (si : List Nat)
    (hD : 1 ≤ D) :
    ((select_locations catalog prefs ts te pace D mand excl si).length : Int) ≤
      max (D * pace.locations_per_day) ((mandatory_df catalog mand excl).length : Int) ∧
    (((mandatory_df catalog mand excl).length : Int) ≤ D * pace.locations_per_day →
      ((select_locations catalog prefs ts te pace D mand excl si).length : Int) ≤
        D * pace.locations_per_day) := by
  rw [select_locations_length catalog prefs ts te pace D mand excl si]
  rw [remaining_slots, max_locations]
  set M := (mandatory_df catalog mand excl).length with hM
  set Q := (pool_df catalog mand excl).length with hQ
  set K := D * (pace.locations_per_day : Int) with hK
  omega

/-- C1 witness: a 2-day Balanced trip with one mandatory and one excluded
name on the demo catalog. -/
theorem C1_selection_size_bound_witness :
    (1 ≤ (2 : Int)) ∧
    (((select_locations demo_catalog [] ⟨0, 1⟩ ⟨1, 1⟩ .balanced 2
        ["Sigiriya"] ["Ella"] []).length : Int) ≤
      max ((2 : Int) * Pace.balanced.locations_per_day)
        ((mandatory_df demo_catalog ["Sigiriya"] ["Ella"]).length : Int) ∧
     (((mandatory_df demo_catalog ["Sigiriya"] ["Ella"]).length : Int) ≤
        (2 : Int) * Pace.balanced.locations_per_day →
      ((select_locations demo_catalog [] ⟨0, 1⟩ ⟨1, 1⟩ .balanced 2
          ["Sigiriya"] ["Ella"] []).length : Int) ≤
        (2 : Int) * Pace.balanced.locations_per_day)) :=
  ⟨by decide,
   C1_selection_size_bound demo_catalog [] ⟨0, 1⟩ ⟨1, 1⟩ .balanced 2
     ["Sigiriya"] ["Ella"] [] (by decide)⟩

/-- C2: under a pace preset and `trip_duration_days ≥ 1`, with non-negative
table distances, the accumulated distance committed by the greedy loop
never exceeds `max_distance_per_day * trip_duration_days` (a tentative
addition that would overflow is rejected and the loop stops), and every
day number emitted by the route builder lies in `[1, trip_duration_days]`. -/
theorem C2_route_budget_and_days (tbl : List DistanceEdge) (locs : List Location)
    (pace : Pace) (D : Nat) (hD : 1 ≤ D)
    (hnn : ∀ e ∈ tbl, 0 ≤ e.distance_km) :
    route_accumulated_distance tbl locs pace.distance_per_day_km D ≤
      pace.distance_per_day_km * D ∧
    ∀ p ∈ optimize_route tbl locs pace.distance_per_day_km D,
      1 ≤ p.2 ∧ p.2 ≤ D := by
  have h0 : (0 : ℚ) ≤ pace.distance_per_day_km * D := by
    have h1 : (0 : ℚ) ≤ pace.distance_per_day_km := by
      cases pace <;> norm_num [Pace.distance_per_day_km]
    exact mul_nonneg h1 (by positivity)
  constructor
  · cases locs with
    | nil => simpa [route_accumulated_distance] using h0
    | cons first rest =>
      simp only [route_accumulated_distance]
      exact route_loop_acc_le tbl _ rest.length first rest 0 h0
  · intro p hp
    cases locs with
    | nil => simp [optimize_route] at hp
    | cons first rest =>
      simp only [optimize_route] at hp
      exact (assign_days_to_locations_mem _ D p hp).2

/-- C2 witness at the demo catalog, Balanced pace, 2 days. -/
theorem C2_route_budget_and_days_witness :
    (1 ≤ 2 ∧ ∀ e ∈ demo_distances, 0 ≤ e.distance_km) ∧
    (route_accumulated_distance demo_distances demo_catalog
        Pace.balanced.distance_per_day_km 2 ≤
      Pace.balanced.distance_per_day_km * 2 ∧
     ∀ p ∈ optimize_route demo_distances demo_catalog
        Pace.balanced.distance_per_day_km 2, 1 ≤ p.2 ∧ p.2 ≤ 2) :=
  ⟨⟨by decide, by decide⟩,
   C2_route_budget_and_days demo_distances demo_catalog .balanced 2 (by decide) (by decide)⟩

/-- C3: the final selection never contains an excluded display name (and
hence no excluded name reaches the final itinerary, mandatory or not),
and always contains every catalog location whose name is mandatory and
not excluded. -/
theorem C3_exclusion_mandatory (catalog : List Location) (tbl : List DistanceEdge)
    (ts te : Date) (prefs : List (String × ℚ)) (pace : Pace) (D : Int)
    (mand excl : List String) (si : List Nat) (n : Nat) :
    (∀ l ∈ select_locations catalog prefs ts te pace D mand excl si, l.name ∉ excl) ∧
    (∀ l ∈ catalog, l.name ∈ mand → l.name ∉ excl →
      l ∈ select_locations catalog prefs ts te pace D mand excl si) ∧
    (∀ p ∈ (optimize_itinerary catalog tbl ts te prefs pace mand excl si n).itinerary,
      p.1.name ∉ excl) := by
  refine ⟨?_, ?_, ?_⟩
  · intro l hl
    exact select_locations_subset_not_excluded catalog prefs ts te pace D mand excl si l hl
  · intro l hcat hmand hexcl
    rw [select_locations, List.mem_append]
    left
    rw [mandatory_df, List.mem_filter, not_excluded_df, List.mem_filter]
    exact ⟨⟨hcat, by simpa using hexcl⟩, by simpa using hmand⟩
  · intro p hp
    simp only [optimize_itinerary] at hp
    exact select_locations_subset_not_excluded catalog prefs ts te pace
      (te.days - ts.days + 1) mand excl si p.1
      (optimize_route_mem_fst tbl _ pace.distance_per_day_km _ p hp)

/-- C3 witness: a mandatory, non-excluded catalog location is selected. -/
theorem C3_exclusion_mandatory_witness :
    (locA ∈ demo_catalog ∧ locA.name ∈ ["Sigiriya"] ∧ locA.name ∉ ["Ella"]) ∧
    locA ∈ select_locations demo_catalog [] ⟨0, 1⟩ ⟨2, 1⟩ .balanced 3
      ["Sigiriya"] ["Ella"] [] :=
  ⟨by decide,
   (C3_exclusion_mandatory demo_catalog demo_distances ⟨0, 1⟩ ⟨2, 1⟩ [] .balanced 3
     ["Sigiriya"] ["Ella"] [] 1).2.1 locA (by decide) (by decide) (by decide)⟩

/-- C6: for a non-empty itinerary the actual per-person budget equals
`((known-distance sum) * 0.2 / traveler_count + 50 * days + 30 * days +
10 * route_length) * multiplier` with multiplier 1.2 / 1.1 / 1.0 for
Fast-Paced / Balanced / Relaxing, and for an empty itinerary it is `0`
regardless of trip length. -/
theorem C6_actual_budget (tbl : List DistanceEdge) (itin : List (Location × Nat))
    (D : Int) (pace : Pace) (n : Nat) (hn : 1 ≤ n) :
    (itin ≠ [] →
      calculate_actual_budget tbl itin D pace n =
        (spec_known_distance_sum tbl itin * 0.2 / n + 50 * D + 30 * D +
            10 * itin.length) *
          (if pace = .fastPaced then 1.2 else if pace = .balanced then 1.1 else 1.0)) ∧
    calculate_actual_budget tbl [] D pace n = 0 := by
  constructor
  · intro hne
    rw [calculate_actual_budget, if_neg (by simpa [List.isEmpty_iff] using hne)]
    rw [itinerary_total_distance,
      sum_map_getD_eq_sum_filterMap (fun p => findDistance tbl p.1.1.place_id p.2.1.place_id)
        (consecutive_pairs itin),
      ← spec_known_distance_sum]
    cases pace
    · rw [if_pos rfl]
      simp only [Pace.budget_multiplier]
      ring
    · rw [if_neg (by decide), if_pos rfl]
      simp only [Pace.budget_multiplier]
      ring
    · rw [if_neg (by decide), if_neg (by decide)]
      simp only [Pace.budget_multiplier]
      ring
  · rw [calculate_actual_budget]
    simp

/-- C6 witness: a two-stop itinerary on the demo distance table. -/
theorem C6_actual_budget_witness :
    (1 ≤ 1 ∧ ([(locA, 1), (locB, 1)] : List (Location × Nat)) ≠ []) ∧
    calculate_actual_budget demo_distances [(locA, 1), (locB, 1)] 2 .balanced 1 =
      (spec_known_distance_sum demo_distances [(locA, 1), (locB, 1)] * 0.2 / 1 +
          50 * 2 + 30 * 2 +
          10 * ([(locA, 1), (locB, 1)] : List (Location × Nat)).length) *
        (if Pace.balanced = .fastPaced then 1.2
         else if Pace.balanced = .balanced then 1.1 else 1.0) :=
  ⟨⟨by decide, by decide⟩,
   (C6_actual_budget demo_distances [(locA, 1), (locB, 1)] 2 .balanced 1 (by decide)).1
     (by decide)⟩

/-- C7 counterexample: a route of 4 locations over 3 days (4 not divisible
by 3) loses no trailing entry — `ceil(4/3) = 2` locations per day places
every index on a day `≤ 3`, so nothing is dropped. -/
theorem C7_counterexample :
    demo_catalog.length % 3 ≠ 0 ∧
    (assign_days_to_locations demo_catalog 3).length = demo_catalog.length ∧
    ∀ p ∈ assign_days_to_locations demo_catalog 3, p.2 ≤ 3 := by decide

/-- C7 amended: for every route and every `trip_duration_days ≥ 1`,
`locations_per_day = ceil(route_length / trip_duration_days)` makes
`floor(index / locations_per_day) + 1 ≤ trip_duration_days` for every
route position, so the drop branch never fires and the day assignment
keeps every entry (the guard is dead code, divisible or not). -/
theorem C7_no_entry_dropped (locs : List Location) (D : Nat) (hD : 1 ≤ D) :
    (assign_days_to_locations locs D).length = locs.length ∧
    ∀ p ∈ assign_days_to_locations locs D, p.2 ≤ D :=
  ⟨assign_days_to_locations_length locs D hD,
   fun p hp => (assign_days_to_locations_mem locs D p hp).2.2⟩

/-- C7 witness at 4 locations over 3 days. -/
theorem C7_no_entry_dropped_witness :
    (1 ≤ 3) ∧
    ((assign_days_to_locations demo_catalog 3).length = demo_catalog.length ∧
     ∀ p ∈ assign_days_to_locations demo_catalog 3, p.2 ≤ 3) :=
  ⟨by decide, C7_no_entry_dropped demo_catalog 3 (by decide)⟩

/-- C8: with `end_date` one day before `start_date`, `optimize_itinerary`
computes `trip_duration = (end - start).days + 1 = 0` and proceeds to
return a normal result with that non-positive duration — it neither
rejects the request nor clamps the duration to 1. -/
theorem C8_negative_duration_not_rejected :
    (optimize_itinerary demo_catalog [] ⟨100, 5⟩ ⟨99, 5⟩ [] .balanced [] [] [] 1).trip_duration
        = 0 ∧
    ¬ 1 ≤ (optimize_itinerary demo_catalog [] ⟨100, 5⟩ ⟨99, 5⟩ [] .balanced
        [] [] [] 1).trip_duration ∧
    (optimize_itinerary demo_catalog [] ⟨100, 5⟩ ⟨99, 5⟩ [] .balanced [] [] [] 1).itinerary
        = [] := by decide

end TripCeylon
